import Mathlib

/-!
Shallow embedding of the `adzuna-rs` client library.

This file embeds the request-building core of the `adzuna-rs` repository in
Lean and proves the behavioural properties stated in its specification.

The repository contains three near-duplicate iterations of the same design:

* `src/request.rs` + `src/models.rs` — the trait-based final iteration, with a
  `Parameters` record holding a `locations : Vec<String>` that is serialized
  positionally as `location0..location7`;
* `src/client.rs` — a generic `RequestBuilder<T>` keyed by an endpoint string,
  with `location0..location7` stored as eight separate optional slots;
* `src/lib.rs` — the oldest self-contained iteration, also slot-based.

Definitions below are labelled with the source file and function they embed.
Network transport is not modelled; `fetch` is embedded as a pure function of
the HTTP status and of the (attempted) parses of the response body, which is
all the post-transport code inspects.
-/

/-- `ROOT_URL` from `src/request.rs` / `src/client.rs` / `src/lib.rs`. -/
def ROOT_URL : String := "https://api.adzuna.com/v1/api"

/-- `ApiException` from `src/models.rs`: the error envelope returned by the
API on non-2xx responses (`exception`, `doc`, `display`). -/
structure ApiException where
  exception : String
  doc : String
  display : String
deriving Repr, DecidableEq

/-- `AdzunaError` from `src/request.rs`: the error type of the trait-based
`fetch`, carrying an optional parsed envelope and the HTTP status code.
The status is embedded as a `Nat` (`reqwest::StatusCode` is a `u16`). -/
structure AdzunaError where
  api_error : Option ApiException
  http_status : Nat
deriving Repr, DecidableEq

/-- `Country` from `src/models.rs` (identical in `src/lib.rs`). -/
inductive Country where
  | UnitedKingdom
  | UnitedStates
  | Austria
  | Australia
  | Belgium
  | Brazil
  | Canada
  | Switzerland
  | Germany
  | Spain
  | France
  | India
  | Italy
  | Mexico
  | Netherlands
  | NewZealand
  | Poland
  | Russia
  | Singapore
  | SouthAfrica
deriving Repr, DecidableEq

/-- `Country::to_code` from `src/models.rs` (the match arms are identical in
`src/lib.rs`). -/
def Country.to_code : Country → String
  | .UnitedKingdom => "gb"
  | .UnitedStates => "us"
  | .Austria => "at"
  | .Australia => "au"
  | .Belgium => "be"
  | .Brazil => "br"
  | .Canada => "ca"
  | .Switzerland => "ch"
  | .Germany => "de"
  | .Spain => "es"
  | .France => "fr"
  | .India => "in"
  | .Italy => "it"
  | .Mexico => "mx"
  | .Netherlands => "nl"
  | .NewZealand => "nl"
  | .Poland => "pl"
  | .Russia => "ru"
  | .Singapore => "sg"
  | .SouthAfrica => "za"

/-- `SortDirection` from `src/models.rs`. -/
inductive SortDirection where
  | Up
  | Down
deriving Repr, DecidableEq

/-- The `Display` impl of `SortDirection` from `src/models.rs`. -/
def SortDirection.to_string : SortDirection → String
  | .Up => "up"
  | .Down => "down"

/-- `SortBy` from `src/models.rs`. -/
inductive SortBy where
  | Default
  | Hybrid
  | Date
  | Salary
  | Relevance
deriving Repr, DecidableEq

/-- The `Display` impl of `SortBy` from `src/models.rs`. -/
def SortBy.to_string : SortBy → String
  | .Default => "default"
  | .Hybrid => "hybrid"
  | .Date => "date"
  | .Salary => "salary"
  | .Relevance => "relevance"

/-- `Parameters` from `src/models.rs` (final iteration): a flat record of
optional query fields plus the positional `locations` vector.  The Rust field
the raw-identifier field named where in Rust is named `rwhere` here (`where` is a Lean keyword).  Field order
follows the source declaration order, which is the serde serialization
order. -/
structure Parameters where
  locations : List String
  category : Option String
  what : Option String
  months : Option Nat
  what_and : Option String
  what_phrase : Option String
  what_or : Option String
  what_exclude : Option String
  title_only : Option String
  rwhere : Option String
  salary_include_unknown : Option String
  full_time : Option String
  part_time : Option String
  contract : Option String
  permanent : Option String
  company : Option String
  distance : Option Nat
  results_per_page : Option Nat
  max_days_old : Option Nat
  salary_min : Option Nat
  salary_max : Option Nat
  sort_dir : Option String
  sort_by : Option String
deriving Repr, DecidableEq

/-- `Parameters::default()`: every field unset, `locations` empty. -/
def Parameters.default : Parameters :=
  ⟨[], none, none, none, none, none, none, none, none, none, none, none,
   none, none, none, none, none, none, none, none, none, none, none⟩

/-- `location_serialize` from `src/models.rs`: each element of the
`locations` vector is emitted, in order, under the key `location{i}` where
`i` is its index. -/
def location_serialize (locations : List String) : List (String × String) :=
  locations.enum.map (fun p => ("location" ++ toString p.1, p.2))

/-- The shared `location` setter of the trait-based iteration
(`src/request.rs`, identical on every endpoint struct): push the value onto
the `locations` vector only while it holds fewer than 8 entries. -/
def pushLocation (locs : List String) (location : String) : List String :=
  if locs.length < 8 then locs ++ [location] else locs

/-- Folding a whole call sequence of `location` setter calls over an initial
`locations` vector. -/
def pushLocations (locs : List String) (vs : List String) : List String :=
  vs.foldl pushLocation locs

/-- The `Parameters` record of the slot-based iterations (`src/lib.rs`, and
the shape `src/client.rs` manipulates): the eight location slots are eight
separate optional fields `location0..location7`.  Non-location fields follow
the `src/lib.rs` declaration order. -/
structure SlotParameters where
  what : Option String
  months : Option Nat
  what_and : Option String
  what_phrase : Option String
  what_or : Option String
  what_exclude : Option String
  title_only : Option String
  rwhere : Option String
  salary_include_unknown : Option String
  full_time : Option String
  part_time : Option String
  contract : Option String
  permanent : Option String
  company : Option String
  distance : Option Nat
  results_per_page : Option Nat
  max_days_old : Option Nat
  salary_min : Option Nat
  salary_max : Option Nat
  sort_dir : Option String
  sort_by : Option String
  location0 : Option String
  location1 : Option String
  location2 : Option String
  location3 : Option String
  location4 : Option String
  location5 : Option String
  location6 : Option String
  location7 : Option String
  category : Option String
deriving Repr, DecidableEq

/-- `SlotParameters::default()`: every field unset. -/
def SlotParameters.default : SlotParameters :=
  ⟨none, none, none, none, none, none, none, none, none, none, none, none,
   none, none, none, none, none, none, none, none, none, none, none, none,
   none, none, none, none, none, none⟩

/-- `RequestBuilder::location` from `src/client.rs` (same if-chain in
`src/lib.rs`): store the value into the first unfilled slot, in slot order;
when all eight slots are filled, do nothing. -/
def SlotParameters.location (p : SlotParameters) (location : String) : SlotParameters :=
  if p.location0.isNone then { p with location0 := some location }
  else if p.location1.isNone then { p with location1 := some location }
  else if p.location2.isNone then { p with location2 := some location }
  else if p.location3.isNone then { p with location3 := some location }
  else if p.location4.isNone then { p with location4 := some location }
  else if p.location5.isNone then { p with location5 := some location }
  else if p.location6.isNone then { p with location6 := some location }
  else if p.location7.isNone then { p with location7 := some location }
  else p

/-- The slot assignment corresponding to a `locations` vector `l`: slot `i`
holds the `i`-th element of `l` when it exists.  Non-location fields are
taken from `base`. -/
def slotsOfList (base : SlotParameters) (l : List String) : SlotParameters :=
  { base with
    location0 := l.get? 0
    location1 := l.get? 1
    location2 := l.get? 2
    location3 := l.get? 3
    location4 := l.get? 4
    location5 := l.get? 5
    location6 := l.get? 6
    location7 := l.get? 7 }

/-- `RequestBuilder::results_per_page` from `src/lib.rs` (lines 324–327):
stores the value unconditionally, with no positivity guard. -/
def SlotParameters.lib_results_per_page (p : SlotParameters) (results_per_page : Nat) : SlotParameters :=
  { p with results_per_page := some results_per_page }

/-- `RequestBuilder::full_time` from `src/lib.rs` (lines 299–302): takes a
string argument and stores it verbatim. -/
def SlotParameters.lib_full_time (p : SlotParameters) (full_time : String) : SlotParameters :=
  { p with full_time := some full_time }

/-- `RequestBuilder::results_per_page` from `src/client.rs`: stores the
value only when it is positive. -/
def SlotParameters.client_results_per_page (p : SlotParameters) (results_per_page : Nat) : SlotParameters :=
  if results_per_page > 0 then { p with results_per_page := some results_per_page } else p

/-- `RequestBuilder::page` from `src/client.rs`: overwrites the stored page
only when the argument is positive (the stored page starts as `Some(1)`). -/
def client_page (search_page : Option Nat) (page : Nat) : Option Nat :=
  if page > 0 then some page else search_page

/-- The state of an endpoint request struct generated by `create_endpoint!`
in `src/request.rs`: a `Parameters` bag, the resolved country code and the
page number (the borrowed `client` reference carries no request state and is
omitted). -/
structure SearchRequest where
  parameters : Parameters
  search_country : String
  search_page : Nat
deriving Repr, DecidableEq

/-- `$name::new` from the `create_endpoint!` macro in `src/request.rs`:
default parameters, country `Country::UnitedStates.to_code()`, page 1. -/
def SearchRequest.new : SearchRequest :=
  ⟨Parameters.default, Country.UnitedStates.to_code, 1⟩

/-- `SearchRequest::country` from `src/request.rs`. -/
def SearchRequest.country (r : SearchRequest) (country : Country) : SearchRequest :=
  { r with search_country := country.to_code }

/-- `SearchRequest::location` from `src/request.rs`. -/
def SearchRequest.location (r : SearchRequest) (location : String) : SearchRequest :=
  { r with parameters := { r.parameters with locations := pushLocation r.parameters.locations location } }

/-- `SearchRequest::category` from `src/request.rs`. -/
def SearchRequest.category (r : SearchRequest) (category : String) : SearchRequest :=
  { r with parameters := { r.parameters with category := some category } }

/-- `SearchRequest::page` from `src/request.rs`: overwrite the page only
when the argument is positive. -/
def SearchRequest.page (r : SearchRequest) (page : Nat) : SearchRequest :=
  if page > 0 then { r with search_page := page } else r

/-- `SearchRequest::what` from `src/request.rs` (identical on
`HistogramRequest` and `TopCompaniesRequest`). -/
def SearchRequest.what (r : SearchRequest) (what : String) : SearchRequest :=
  { r with parameters := { r.parameters with what := some what } }

/-- `SearchRequest::what_and` from `src/request.rs`. -/
def SearchRequest.what_and (r : SearchRequest) (what_and : String) : SearchRequest :=
  { r with parameters := { r.parameters with what_and := some what_and } }

/-- `SearchRequest::what_phrase` from `src/request.rs`. -/
def SearchRequest.what_phrase (r : SearchRequest) (what_phrase : String) : SearchRequest :=
  { r with parameters := { r.parameters with what_phrase := some what_phrase } }

/-- `SearchRequest::what_or` from `src/request.rs`. -/
def SearchRequest.what_or (r : SearchRequest) (what_or : String) : SearchRequest :=
  { r with parameters := { r.parameters with what_or := some what_or } }

/-- `SearchRequest::what_exclude` from `src/request.rs`. -/
def SearchRequest.what_exclude (r : SearchRequest) (what_exclude : String) : SearchRequest :=
  { r with parameters := { r.parameters with what_exclude := some what_exclude } }

/-- `SearchRequest::place` from `src/request.rs`: stores the `where`
parameter. -/
def SearchRequest.place (r : SearchRequest) (rwhere : String) : SearchRequest :=
  { r with parameters := { r.parameters with rwhere := some rwhere } }

/-- `SearchRequest::title_only` from `src/request.rs`. -/
def SearchRequest.title_only (r : SearchRequest) (title_only : String) : SearchRequest :=
  { r with parameters := { r.parameters with title_only := some title_only } }

/-- `SearchRequest::salary_include_unknown` from `src/request.rs`: no
argument; always stores the literal string "1". -/
def SearchRequest.salary_include_unknown (r : SearchRequest) : SearchRequest :=
  { r with parameters := { r.parameters with salary_include_unknown := some "1" } }

/-- `SearchRequest::full_time` from `src/request.rs`: no argument; always
stores the literal string "1". -/
def SearchRequest.full_time (r : SearchRequest) : SearchRequest :=
  { r with parameters := { r.parameters with full_time := some "1" } }

/-- `SearchRequest::part_time` from `src/request.rs`. -/
def SearchRequest.part_time (r : SearchRequest) : SearchRequest :=
  { r with parameters := { r.parameters with part_time := some "1" } }

/-- `SearchRequest::contract` from `src/request.rs`. -/
def SearchRequest.contract (r : SearchRequest) : SearchRequest :=
  { r with parameters := { r.parameters with contract := some "1" } }

/-- `SearchRequest::permanent` from `src/request.rs`. -/
def SearchRequest.permanent (r : SearchRequest) : SearchRequest :=
  { r with parameters := { r.parameters with permanent := some "1" } }

/-- `SearchRequest::company` from `src/request.rs`. -/
def SearchRequest.company (r : SearchRequest) (company : String) : SearchRequest :=
  { r with parameters := { r.parameters with company := some company } }

/-- `SearchRequest::distance` from `src/request.rs`. -/
def SearchRequest.distance (r : SearchRequest) (distance : Nat) : SearchRequest :=
  { r with parameters := { r.parameters with distance := some distance } }

/-- `SearchRequest::results_per_page` from `src/request.rs`: store the value
only when it is positive. -/
def SearchRequest.results_per_page (r : SearchRequest) (results_per_page : Nat) : SearchRequest :=
  if results_per_page > 0 then
    { r with parameters := { r.parameters with results_per_page := some results_per_page } }
  else r

/-- `SearchRequest::max_days_old` from `src/request.rs`. -/
def SearchRequest.max_days_old (r : SearchRequest) (max_days_old : Nat) : SearchRequest :=
  { r with parameters := { r.parameters with max_days_old := some max_days_old } }

/-- `SearchRequest::salary_min` from `src/request.rs`. -/
def SearchRequest.salary_min (r : SearchRequest) (distance : Nat) : SearchRequest :=
  { r with parameters := { r.parameters with salary_min := some distance } }

/-- `SearchRequest::salary_max` from `src/request.rs`. -/
def SearchRequest.salary_max (r : SearchRequest) (salary_max : Nat) : SearchRequest :=
  { r with parameters := { r.parameters with salary_max := some salary_max } }

/-- `SearchRequest::sort_by` from `src/request.rs`: stores the `Display`
rendering of the `SortBy` value. -/
def SearchRequest.sort_by (r : SearchRequest) (sort_by : SortBy) : SearchRequest :=
  { r with parameters := { r.parameters with sort_by := some sort_by.to_string } }

/-- `SearchRequest::sort_dir` from `src/request.rs`. -/
def SearchRequest.sort_dir (r : SearchRequest) (sort_dir : SortDirection) : SearchRequest :=
  { r with parameters := { r.parameters with sort_dir := some sort_dir.to_string } }

/-- `HistoryRequest::months` from `src/request.rs` (the state shape is the
same for every endpoint struct). -/
def SearchRequest.months (r : SearchRequest) (months : Nat) : SearchRequest :=
  { r with parameters := { r.parameters with months := some months } }

/-- The seven API routes exposed by the library. -/
inductive Endpoint where
  | version
  | categories
  | histogram
  | history
  | top_companies
  | geodata
  | search
deriving Repr, DecidableEq

/-- The `get_request_url` implementations of `src/request.rs`, one match arm
per endpoint struct: `/version` takes no country segment; every other route
is `/jobs/{country}/{path}`; only `search` appends `/{page}`. -/
def get_request_url (e : Endpoint) (search_country : String) (search_page : Nat) : String :=
  match e with
  | .version => "/version"
  | .categories => "/jobs/" ++ search_country ++ "/categories"
  | .histogram => "/jobs/" ++ search_country ++ "/histogram"
  | .history => "/jobs/" ++ search_country ++ "/history"
  | .top_companies => "/jobs/" ++ search_country ++ "/top_companies"
  | .geodata => "/jobs/" ++ search_country ++ "/geodata"
  | .search => "/jobs/" ++ search_country ++ "/search/" ++ toString search_page

/-- The URL built by the trait-based `fetch` (`src/request.rs` line 39):
`format!("{}{}", ROOT_URL, self.get_request_url())`. -/
def request_fetch_url (e : Endpoint) (r : SearchRequest) : String :=
  ROOT_URL ++ get_request_url e r.search_country r.search_page

/-- The URL built by `RequestBuilder::fetch` in `src/client.rs`
(lines 258–267): when a country is set, `/jobs/{country}/{endpoint}` plus a
`/{page}` suffix whenever `search_page` is `Some`; otherwise just
`/{endpoint}`. -/
def client_fetch_url (endpoint : String) (search_country : Option String)
    (search_page : Option Nat) : String :=
  ROOT_URL ++
    match search_country with
    | some country =>
        "/jobs/" ++ country ++ "/" ++ endpoint ++
          (match search_page with
           | some page => "/" ++ toString page
           | none => "")
    | none => "/" ++ endpoint

/-- The endpoint path string passed to `Client::query` in `src/client.rs`
(`api_version` → "version", `categories` → "categories", …). -/
def Endpoint.client_name : Endpoint → String
  | .version => "version"
  | .categories => "categories"
  | .histogram => "histogram"
  | .history => "history"
  | .top_companies => "top_companies"
  | .geodata => "geodata"
  | .search => "search"

/-- The country stored by the `Client` accessor methods of `src/client.rs`
(lines 34–60): `api_version` leaves the country of the builder `None`; every
other accessor calls `.country(Country::UnitedStates)`. -/
def Endpoint.client_default_country : Endpoint → Option String
  | .version => none
  | _ => some Country.UnitedStates.to_code

/-- `RequestBuilder::new` from `src/client.rs` sets `search_page` to
`Some(1)` for every endpoint; no code path ever resets it to `None`. -/
def client_default_page : Option Nat := some 1

/-- Serialization of one optional string field by `serde_urlencoded`: a set
field becomes one `key=value` pair, an unset field is omitted. -/
def optStr (key : String) (v : Option String) : List (String × String) :=
  match v with
  | some s => [(key, s)]
  | none => []

/-- Serialization of one optional numeric field. -/
def optNat (key : String) (v : Option Nat) : List (String × String) :=
  match v with
  | some n => [(key, toString n)]
  | none => []

/-- Serialization of the whole `Parameters` record of `src/models.rs` to
query pairs, in declaration order: the flattened positional location list
followed by each optional field (unset fields omitted). -/
def serializeParameters (p : Parameters) : List (String × String) :=
  location_serialize p.locations ++
  optStr "category" p.category ++
  optStr "what" p.what ++
  optNat "months" p.months ++
  optStr "what_and" p.what_and ++
  optStr "what_phrase" p.what_phrase ++
  optStr "what_or" p.what_or ++
  optStr "what_exclude" p.what_exclude ++
  optStr "title_only" p.title_only ++
  optStr "where" p.rwhere ++
  optStr "salary_include_unknown" p.salary_include_unknown ++
  optStr "full_time" p.full_time ++
  optStr "part_time" p.part_time ++
  optStr "contract" p.contract ++
  optStr "permanent" p.permanent ++
  optStr "company" p.company ++
  optNat "distance" p.distance ++
  optNat "results_per_page" p.results_per_page ++
  optNat "max_days_old" p.max_days_old ++
  optNat "salary_min" p.salary_min ++
  optNat "salary_max" p.salary_max ++
  optStr "sort_dir" p.sort_dir ++
  optStr "sort_by" p.sort_by

/-- The full query string pairs attached by `fetch` (`src/request.rs`
lines 40–49): the two auth parameters followed by the serialized
`Parameters`. -/
def fetch_query (app_id app_key : String) (p : Parameters) : List (String × String) :=
  [("app_id", app_id), ("app_key", app_key)] ++ serializeParameters p

/-- The post-transport behaviour of the trait-based `fetch`
(`src/request.rs` lines 55–67) as a function of the HTTP status, of the
result of parsing the body as the error envelope, and of the result of
parsing the body as the declared response type: a non-200 status fails with
`AdzunaError::new(envelope, status)` (envelope `None` when the body did not
parse as the envelope); a 200 status succeeds when the body parses as the
response type and otherwise fails with
`AdzunaError::from_status(StatusCode::BAD_REQUEST)` (400, no envelope). -/
def request_fetch_outcome {T : Type} (status : Nat) (envelope : Option ApiException)
    (parsed : Option T) : Except AdzunaError T :=
  if status ≠ 200 then
    .error ⟨envelope, status⟩
  else
    match parsed with
    | some v => .ok v
    | none => .error ⟨none, 400⟩

/-- The post-transport behaviour of `RequestBuilder::fetch` in
`src/client.rs` (lines 281–308): a non-200 status fails with the bare status
code (the body, and hence any parseable error envelope `envelope`, is never
inspected on this path); a 200 status succeeds when the body parses as the
response type and otherwise fails with `StatusCode::BAD_REQUEST` (400). -/
def client_fetch_outcome {T : Type} (status : Nat) (_envelope : Option ApiException)
    (parsed : Option T) : Except Nat T :=
  if status ≠ 200 then
    .error status
  else
    match parsed with
    | some v => .ok v
    | none => .error 400

/-- A JSON value, for embedding the serde deserializers of
`src/models.rs`. -/
inductive Json where
  | null
  | bool (b : Bool)
  | num (n : Int)
  | str (s : String)
  | arr (xs : List Json)
  | obj (kvs : List (String × Json))

/-- `String::deserialize` on a JSON value: succeeds exactly on a JSON
string. -/
def Json.deserializeString : Json → Except String String
  | .str s => .ok s
  | _ => .error "invalid type: expected a string"

/-- `string_bool` from `src/models.rs` (lines 116–122), the
`deserialize_with` decoder of `Job::salary_is_predicted`: deserialize the
value as a string (failing on any non-string, including a native JSON
boolean), then compare it with the literal "1". -/
def string_bool (j : Json) : Except String Bool :=
  (j.deserializeString).map (fun buf => buf == "1")

/-- The observable components of a `SearchRequest`: its 23 `Parameters`
fields plus the two path components (country code and page number). -/
inductive ReqField where
  | locations
  | category
  | what
  | months
  | what_and
  | what_phrase
  | what_or
  | what_exclude
  | title_only
  | rwhere
  | salary_include_unknown
  | full_time
  | part_time
  | contract
  | permanent
  | company
  | distance
  | results_per_page
  | max_days_old
  | salary_min
  | salary_max
  | sort_dir
  | sort_by
  | search_country
  | search_page
deriving Repr, DecidableEq

/-- The value of one observable component (components have four different
types, so the read-out is a sum). -/
inductive FieldVal where
  | os (v : Option String)
  | onat (v : Option Nat)
  | ls (v : List String)
  | st (v : String)
  | nt (v : Nat)
deriving Repr, DecidableEq

/-- Read one observable component of a `SearchRequest`. -/
def getField (f : ReqField) (r : SearchRequest) : FieldVal :=
  match f with
  | .locations => .ls r.parameters.locations
  | .category => .os r.parameters.category
  | .what => .os r.parameters.what
  | .months => .onat r.parameters.months
  | .what_and => .os r.parameters.what_and
  | .what_phrase => .os r.parameters.what_phrase
  | .what_or => .os r.parameters.what_or
  | .what_exclude => .os r.parameters.what_exclude
  | .title_only => .os r.parameters.title_only
  | .rwhere => .os r.parameters.rwhere
  | .salary_include_unknown => .os r.parameters.salary_include_unknown
  | .full_time => .os r.parameters.full_time
  | .part_time => .os r.parameters.part_time
  | .contract => .os r.parameters.contract
  | .permanent => .os r.parameters.permanent
  | .company => .os r.parameters.company
  | .distance => .onat r.parameters.distance
  | .results_per_page => .onat r.parameters.results_per_page
  | .max_days_old => .onat r.parameters.max_days_old
  | .salary_min => .onat r.parameters.salary_min
  | .salary_max => .onat r.parameters.salary_max
  | .sort_dir => .os r.parameters.sort_dir
  | .sort_by => .os r.parameters.sort_by
  | .search_country => .st r.search_country
  | .search_page => .nt r.search_page

/-- One call to a non-location setter of the builder surface
(`src/request.rs` lines 329–481 together with `HistoryRequest::months`),
with its argument. -/
inductive SetterOp where
  | category (v : String)
  | what (v : String)
  | months (v : Nat)
  | what_and (v : String)
  | what_phrase (v : String)
  | what_or (v : String)
  | what_exclude (v : String)
  | title_only (v : String)
  | place (v : String)
  | salary_include_unknown
  | full_time
  | part_time
  | contract
  | permanent
  | company (v : String)
  | distance (v : Nat)
  | results_per_page (v : Nat)
  | max_days_old (v : Nat)
  | salary_min (v : Nat)
  | salary_max (v : Nat)
  | sort_by (v : SortBy)
  | sort_dir (v : SortDirection)
  | country (v : Country)
  | page (v : Nat)
deriving Repr

/-- Apply one setter call to the builder state, dispatching to the embedded
`src/request.rs` setter. -/
def applySetter (op : SetterOp) (r : SearchRequest) : SearchRequest :=
  match op with
  | .category v => r.category v
  | .what v => r.what v
  | .months v => r.months v
  | .what_and v => r.what_and v
  | .what_phrase v => r.what_phrase v
  | .what_or v => r.what_or v
  | .what_exclude v => r.what_exclude v
  | .title_only v => r.title_only v
  | .place v => r.place v
  | .salary_include_unknown => r.salary_include_unknown
  | .full_time => r.full_time
  | .part_time => r.part_time
  | .contract => r.contract
  | .permanent => r.permanent
  | .company v => r.company v
  | .distance v => r.distance v
  | .results_per_page v => r.results_per_page v
  | .max_days_old v => r.max_days_old v
  | .salary_min v => r.salary_min v
  | .salary_max v => r.salary_max v
  | .sort_by v => r.sort_by v
  | .sort_dir v => r.sort_dir v
  | .country v => r.country v
  | .page v => r.page v

/-- The single component a setter is named for / allowed to change. -/
def SetterOp.target : SetterOp → ReqField
  | .category _ => .category
  | .what _ => .what
  | .months _ => .months
  | .what_and _ => .what_and
  | .what_phrase _ => .what_phrase
  | .what_or _ => .what_or
  | .what_exclude _ => .what_exclude
  | .title_only _ => .title_only
  | .place _ => .rwhere
  | .salary_include_unknown => .salary_include_unknown
  | .full_time => .full_time
  | .part_time => .part_time
  | .contract => .contract
  | .permanent => .permanent
  | .company _ => .company
  | .distance _ => .distance
  | .results_per_page _ => .results_per_page
  | .max_days_old _ => .max_days_old
  | .salary_min _ => .salary_min
  | .salary_max _ => .salary_max
  | .sort_by _ => .sort_by
  | .sort_dir _ => .sort_dir
  | .country _ => .search_country
  | .page _ => .search_page

/-- The state of the generic `RequestBuilder<T>` of `src/client.rs`
(lines 10–17): the endpoint path string, an optional resolved country code,
an optional page number and a slot-based parameter bag (the borrowed
`client` reference and the phantom type carry no request state and are
omitted). -/
structure ClientRequestBuilder where
  endpoint : String
  search_country : Option String
  search_page : Option Nat
  parameters : SlotParameters
deriving Repr, DecidableEq

/-- `RequestBuilder::new` from `src/client.rs` (lines 64–73): no country,
page `Some(1)`, default parameters. -/
def ClientRequestBuilder.new (endpoint : String) : ClientRequestBuilder :=
  ⟨endpoint, none, some 1, SlotParameters.default⟩

/-- `RequestBuilder::category` from `src/client.rs`. -/
def ClientRequestBuilder.category (b : ClientRequestBuilder) (category : String) : ClientRequestBuilder :=
  { b with parameters := { b.parameters with category := some category } }

/-- `RequestBuilder::country` from `src/client.rs`: stores the code of the
given country. -/
def ClientRequestBuilder.country (b : ClientRequestBuilder) (country : Country) : ClientRequestBuilder :=
  { b with search_country := some country.to_code }

/-- `RequestBuilder::page` from `src/client.rs`: overwrites the stored page
only when the argument is positive. -/
def ClientRequestBuilder.page (b : ClientRequestBuilder) (page : Nat) : ClientRequestBuilder :=
  if page > 0 then { b with search_page := some page } else b

/-- `RequestBuilder::what` from `src/client.rs`. -/
def ClientRequestBuilder.what (b : ClientRequestBuilder) (what : String) : ClientRequestBuilder :=
  { b with parameters := { b.parameters with what := some what } }

/-- `RequestBuilder::months` from `src/client.rs`. -/
def ClientRequestBuilder.months (b : ClientRequestBuilder) (months : Nat) : ClientRequestBuilder :=
  { b with parameters := { b.parameters with months := some months } }

/-- `RequestBuilder::what_and` from `src/client.rs`. -/
def ClientRequestBuilder.what_and (b : ClientRequestBuilder) (what_and : String) : ClientRequestBuilder :=
  { b with parameters := { b.parameters with what_and := some what_and } }

/-- `RequestBuilder::what_phrase` from `src/client.rs`. -/
def ClientRequestBuilder.what_phrase (b : ClientRequestBuilder) (what_phrase : String) : ClientRequestBuilder :=
  { b with parameters := { b.parameters with what_phrase := some what_phrase } }

/-- `RequestBuilder::what_or` from `src/client.rs`. -/
def ClientRequestBuilder.what_or (b : ClientRequestBuilder) (what_or : String) : ClientRequestBuilder :=
  { b with parameters := { b.parameters with what_or := some what_or } }

/-- `RequestBuilder::what_exclude` from `src/client.rs`. -/
def ClientRequestBuilder.what_exclude (b : ClientRequestBuilder) (what_exclude : String) : ClientRequestBuilder :=
  { b with parameters := { b.parameters with what_exclude := some what_exclude } }

/-- `RequestBuilder::place` from `src/client.rs`: stores the `where`
parameter. -/
def ClientRequestBuilder.place (b : ClientRequestBuilder) (rwhere : String) : ClientRequestBuilder :=
  { b with parameters := { b.parameters with rwhere := some rwhere } }

/-- `RequestBuilder::title_only` from `src/client.rs`. -/
def ClientRequestBuilder.title_only (b : ClientRequestBuilder) (title_only : String) : ClientRequestBuilder :=
  { b with parameters := { b.parameters with title_only := some title_only } }

/-- `RequestBuilder::salary_include_unknown` from `src/client.rs`: no
argument; always stores the literal string "1". -/
def ClientRequestBuilder.salary_include_unknown (b : ClientRequestBuilder) : ClientRequestBuilder :=
  { b with parameters := { b.parameters with salary_include_unknown := some "1" } }

/-- `RequestBuilder::full_time` from `src/client.rs`: no argument; always
stores the literal string "1". -/
def ClientRequestBuilder.full_time (b : ClientRequestBuilder) : ClientRequestBuilder :=
  { b with parameters := { b.parameters with full_time := some "1" } }

/-- `RequestBuilder::part_time` from `src/client.rs`. -/
def ClientRequestBuilder.part_time (b : ClientRequestBuilder) : ClientRequestBuilder :=
  { b with parameters := { b.parameters with part_time := some "1" } }

/-- `RequestBuilder::contract` from `src/client.rs`. -/
def ClientRequestBuilder.contract (b : ClientRequestBuilder) : ClientRequestBuilder :=
  { b with parameters := { b.parameters with contract := some "1" } }

/-- `RequestBuilder::permanent` from `src/client.rs`. -/
def ClientRequestBuilder.permanent (b : ClientRequestBuilder) : ClientRequestBuilder :=
  { b with parameters := { b.parameters with permanent := some "1" } }

/-- `RequestBuilder::company` from `src/client.rs`. -/
def ClientRequestBuilder.company (b : ClientRequestBuilder) (company : String) : ClientRequestBuilder :=
  { b with parameters := { b.parameters with company := some company } }

/-- `RequestBuilder::distance` from `src/client.rs`. -/
def ClientRequestBuilder.distance (b : ClientRequestBuilder) (distance : Nat) : ClientRequestBuilder :=
  { b with parameters := { b.parameters with distance := some distance } }

/-- `RequestBuilder::results_per_page` from `src/client.rs`: store the
value only when it is positive. -/
def ClientRequestBuilder.results_per_page (b : ClientRequestBuilder) (results_per_page : Nat) : ClientRequestBuilder :=
  if results_per_page > 0 then
    { b with parameters := { b.parameters with results_per_page := some results_per_page } }
  else b

/-- `RequestBuilder::max_days_old` from `src/client.rs`. -/
def ClientRequestBuilder.max_days_old (b : ClientRequestBuilder) (max_days_old : Nat) : ClientRequestBuilder :=
  { b with parameters := { b.parameters with max_days_old := some max_days_old } }

/-- `RequestBuilder::salary_min` from `src/client.rs`. -/
def ClientRequestBuilder.salary_min (b : ClientRequestBuilder) (distance : Nat) : ClientRequestBuilder :=
  { b with parameters := { b.parameters with salary_min := some distance } }

/-- `RequestBuilder::salary_max` from `src/client.rs`. -/
def ClientRequestBuilder.salary_max (b : ClientRequestBuilder) (salary_max : Nat) : ClientRequestBuilder :=
  { b with parameters := { b.parameters with salary_max := some salary_max } }

/-- `RequestBuilder::sort_by` from `src/client.rs`: stores the `Display`
rendering of the `SortBy` value. -/
def ClientRequestBuilder.sort_by (b : ClientRequestBuilder) (sort_by : SortBy) : ClientRequestBuilder :=
  { b with parameters := { b.parameters with sort_by := some sort_by.to_string } }

/-- `RequestBuilder::sort_dir` from `src/client.rs`. -/
def ClientRequestBuilder.sort_dir (b : ClientRequestBuilder) (sort_dir : SortDirection) : ClientRequestBuilder :=
  { b with parameters := { b.parameters with sort_dir := some sort_dir.to_string } }

/-- The observable components of a `src/client.rs` `RequestBuilder`: the
endpoint path string, the two optional path components, and the 30
`SlotParameters` fields (including the eight location slots). -/
inductive ClientField where
  | endpoint
  | search_country
  | search_page
  | what
  | months
  | what_and
  | what_phrase
  | what_or
  | what_exclude
  | title_only
  | rwhere
  | salary_include_unknown
  | full_time
  | part_time
  | contract
  | permanent
  | company
  | distance
  | results_per_page
  | max_days_old
  | salary_min
  | salary_max
  | sort_dir
  | sort_by
  | location0
  | location1
  | location2
  | location3
  | location4
  | location5
  | location6
  | location7
  | category
deriving Repr, DecidableEq

/-- Read one observable component of a `src/client.rs` builder. -/
def getClientField (g : ClientField) (b : ClientRequestBuilder) : FieldVal :=
  match g with
  | .endpoint => .st b.endpoint
  | .search_country => .os b.search_country
  | .search_page => .onat b.search_page
  | .what => .os b.parameters.what
  | .months => .onat b.parameters.months
  | .what_and => .os b.parameters.what_and
  | .what_phrase => .os b.parameters.what_phrase
  | .what_or => .os b.parameters.what_or
  | .what_exclude => .os b.parameters.what_exclude
  | .title_only => .os b.parameters.title_only
  | .rwhere => .os b.parameters.rwhere
  | .salary_include_unknown => .os b.parameters.salary_include_unknown
  | .full_time => .os b.parameters.full_time
  | .part_time => .os b.parameters.part_time
  | .contract => .os b.parameters.contract
  | .permanent => .os b.parameters.permanent
  | .company => .os b.parameters.company
  | .distance => .onat b.parameters.distance
  | .results_per_page => .onat b.parameters.results_per_page
  | .max_days_old => .onat b.parameters.max_days_old
  | .salary_min => .onat b.parameters.salary_min
  | .salary_max => .onat b.parameters.salary_max
  | .sort_dir => .os b.parameters.sort_dir
  | .sort_by => .os b.parameters.sort_by
  | .location0 => .os b.parameters.location0
  | .location1 => .os b.parameters.location1
  | .location2 => .os b.parameters.location2
  | .location3 => .os b.parameters.location3
  | .location4 => .os b.parameters.location4
  | .location5 => .os b.parameters.location5
  | .location6 => .os b.parameters.location6
  | .location7 => .os b.parameters.location7
  | .category => .os b.parameters.category

/-- Apply one setter call to a `src/client.rs` builder state, dispatching
to the embedded `src/client.rs` setter (the same 24 non-location setters
exist on both builder surfaces). -/
def applyClientSetter (op : SetterOp) (b : ClientRequestBuilder) : ClientRequestBuilder :=
  match op with
  | .category v => b.category v
  | .what v => b.what v
  | .months v => b.months v
  | .what_and v => b.what_and v
  | .what_phrase v => b.what_phrase v
  | .what_or v => b.what_or v
  | .what_exclude v => b.what_exclude v
  | .title_only v => b.title_only v
  | .place v => b.place v
  | .salary_include_unknown => b.salary_include_unknown
  | .full_time => b.full_time
  | .part_time => b.part_time
  | .contract => b.contract
  | .permanent => b.permanent
  | .company v => b.company v
  | .distance v => b.distance v
  | .results_per_page v => b.results_per_page v
  | .max_days_old v => b.max_days_old v
  | .salary_min v => b.salary_min v
  | .salary_max v => b.salary_max v
  | .sort_by v => b.sort_by v
  | .sort_dir v => b.sort_dir v
  | .country v => b.country v
  | .page v => b.page v

/-- The single component of a `src/client.rs` builder a setter is named
for / allowed to change. -/
def SetterOp.client_target : SetterOp → ClientField
  | .category _ => .category
  | .what _ => .what
  | .months _ => .months
  | .what_and _ => .what_and
  | .what_phrase _ => .what_phrase
  | .what_or _ => .what_or
  | .what_exclude _ => .what_exclude
  | .title_only _ => .title_only
  | .place _ => .rwhere
  | .salary_include_unknown => .salary_include_unknown
  | .full_time => .full_time
  | .part_time => .part_time
  | .contract => .contract
  | .permanent => .permanent
  | .company _ => .company
  | .distance _ => .distance
  | .results_per_page _ => .results_per_page
  | .max_days_old _ => .max_days_old
  | .salary_min _ => .salary_min
  | .salary_max _ => .salary_max
  | .sort_by _ => .sort_by
  | .sort_dir _ => .sort_dir
  | .country _ => .search_country
  | .page _ => .search_page

/-- C9: the country-code mapping sends both `Country::Netherlands` and
`Country::NewZealand` to the same two-letter code "nl", so the mapping from
country variants to codes is not injective. -/
theorem c9_country_code_not_injective :
    Country.to_code Country.Netherlands = "nl"
    ∧ Country.to_code Country.NewZealand = "nl"
    ∧ ¬ Function.Injective Country.to_code := by
  refine ⟨rfl, rfl, fun hinj => ?_⟩
  have h : Country.Netherlands = Country.NewZealand :=
    hinj (show Country.to_code Country.Netherlands = Country.to_code Country.NewZealand from rfl)
  exact absurd h (by decide)

/-- C8: `salary_is_predicted` is decoded by `string_bool`, which maps the
literal JSON string "1" to `true` and the literal JSON string "0" to
`false`, fails on a native JSON boolean, and on any other JSON string
defaults to `false` (the comparison with "1"). -/
theorem c8_string_bool_decoding (b : Bool) (s : String) :
    string_bool (Json.str "1") = Except.ok true
    ∧ string_bool (Json.str "0") = Except.ok false
    ∧ string_bool (Json.bool b) = Except.error "invalid type: expected a string"
    ∧ string_bool (Json.str s) = Except.ok (s == "1") := by
  exact ⟨rfl, rfl, by cases b <;> rfl, rfl⟩

/-- C2 (code bug witness): in the `src/client.rs` iteration `search_page`
is initialised to `Some(1)` and never becomes `None`, so the `/{page}`
suffix is appended to every route that has a country segment: the default
categories builder fetches `…/jobs/us/categories/1`.  The trait-based
iteration (`src/request.rs`) builds the pageless URL the spec describes. -/
theorem c2_client_categories_url_has_page :
    client_fetch_url Endpoint.categories.client_name Endpoint.categories.client_default_country
        client_default_page
      = "https://api.adzuna.com/v1/api/jobs/us/categories/1"
    ∧ request_fetch_url Endpoint.categories SearchRequest.new
      = "https://api.adzuna.com/v1/api/jobs/us/categories" := by
  constructor <;> rfl

/-- C4 (counterexample): in the `src/client.rs` iteration the failure value
of a non-200 fetch is the bare status code, so it is the same whether or not
the response body parses as the error envelope — the failure cannot carry
the envelope, unlike the trait-based iteration whose `AdzunaError` differs
in the two situations. -/
theorem c4_client_error_drops_envelope :
    client_fetch_outcome (T := Unit) 401 (some ⟨"ImmediateHttpResponse", "doc", "display"⟩) none
      = Except.error 401
    ∧ client_fetch_outcome (T := Unit) 401 none none = Except.error 401
    ∧ request_fetch_outcome (T := Unit) 401 (some ⟨"ImmediateHttpResponse", "doc", "display"⟩) none
      ≠ request_fetch_outcome (T := Unit) 401 none none := by
  refine ⟨rfl, rfl, by simp [request_fetch_outcome]⟩

/-- C4 (amended): on any non-200 status the trait-based `fetch`
(`src/request.rs`) fails with an `AdzunaError` carrying exactly that status
together with the envelope parse of the body (`none` when the body is
unparseable); the `src/client.rs` iteration fails carrying only the
status. -/
theorem c4_non200_failure {T : Type} (status : Nat) (envelope : Option ApiException)
    (parsed : Option T) (h : status ≠ 200) :
    request_fetch_outcome status envelope parsed = Except.error ⟨envelope, status⟩
    ∧ client_fetch_outcome status envelope parsed = Except.error status := by
  constructor <;> simp [request_fetch_outcome, client_fetch_outcome, h]

/-- C4 witness: instantiation at status 401 with a parsed envelope. -/
theorem c4_non200_failure_witness :
    request_fetch_outcome (T := Unit) 401 (some ⟨"AUTH_FAIL", "d", "u"⟩) none
      = Except.error ⟨some ⟨"AUTH_FAIL", "d", "u"⟩, 401⟩
    ∧ client_fetch_outcome (T := Unit) 401 (some ⟨"AUTH_FAIL", "d", "u"⟩) none
      = Except.error 401 :=
  c4_non200_failure 401 (some ⟨"AUTH_FAIL", "d", "u"⟩) none (by decide)

/-- C5 (counterexample): a 200 response whose body fails to deserialize
yields `AdzunaError::from_status(BAD_REQUEST)` — i.e. a failure that does
carry a status, namely 400 — and that failure is the very same value an
API-reported 400 with an envelope-unparseable body produces, so the two
outcomes are not distinguishable. -/
theorem c5_deser_failure_equals_api_400 :
    request_fetch_outcome (T := Unit) 200 none none
      = request_fetch_outcome (T := Unit) 400 none none
    ∧ request_fetch_outcome (T := Unit) 200 none none = Except.error ⟨none, 400⟩ := by
  refine ⟨rfl, rfl⟩

/-- C5 (amended): a 200 status with an undeserializable body fails with no
envelope and the synthesized status `BAD_REQUEST` (400); this outcome is
distinguishable from any API-reported failure whose status differs from 400
or which carries a parseable envelope, but coincides exactly with an
API-reported 400 whose body holds no parseable envelope. -/
theorem c5_deser_failure_classification {T : Type} (envelope env2 : Option ApiException)
    (e : ApiException) (s : Nat) (h200 : s ≠ 200) :
    request_fetch_outcome (T := T) 200 envelope none = Except.error ⟨none, 400⟩
    ∧ (s ≠ 400 → request_fetch_outcome (T := T) s env2 none ≠ Except.error ⟨none, 400⟩)
    ∧ request_fetch_outcome (T := T) s (some e) none ≠ Except.error ⟨none, 400⟩ := by
  refine ⟨by simp [request_fetch_outcome], ?_, ?_⟩
  · intro h400
    simp [request_fetch_outcome, h200, AdzunaError.mk.injEq]
    intro _
    exact h400
  · simp [request_fetch_outcome, h200, AdzunaError.mk.injEq]

/-- C5 witness: instantiation at an API-reported 401 with an envelope. -/
theorem c5_deser_failure_classification_witness :
    request_fetch_outcome (T := Unit) 200 none none = Except.error ⟨none, 400⟩
    ∧ (request_fetch_outcome (T := Unit) 401 none none ≠ Except.error ⟨none, 400⟩)
    ∧ request_fetch_outcome (T := Unit) 401 (some ⟨"E", "d", "u"⟩) none
      ≠ Except.error ⟨none, 400⟩ := by
  have h := c5_deser_failure_classification (T := Unit) none none ⟨"E", "d", "u"⟩ 401 (by decide)
  exact ⟨h.1, h.2.1 (by decide), h.2.2⟩

/-- C3 (counterexample): `RequestBuilder::results_per_page` in `src/lib.rs`
(lines 324–327) has no positivity guard: calling it with 0 on a builder
whose stored value is `Some(5)` overwrites the stored value with `Some(0)`
instead of leaving it unchanged. -/
theorem c3_lib_results_per_page_zero_overwrites :
    (SlotParameters.lib_results_per_page
        { SlotParameters.default with results_per_page := some 5 } 0).results_per_page
      ≠ ({ SlotParameters.default with results_per_page := some 5 } : SlotParameters).results_per_page := by
  decide

/-- C3 (amended): in the `src/request.rs` and `src/client.rs` iterations,
`results_per_page(0)` and `page(0)` leave the builder unchanged while any
positive argument overwrites the stored value; in the `src/lib.rs`
iteration `results_per_page` stores every argument unconditionally
(including 0), and no `page` setter exists. -/
theorem c3_zero_guard (r : SearchRequest) (sp : SlotParameters) (ob : Option Nat) (k : Nat)
    (hk : 0 < k) :
    r.results_per_page 0 = r
    ∧ r.page 0 = r
    ∧ sp.client_results_per_page 0 = sp
    ∧ client_page ob 0 = ob
    ∧ (r.results_per_page k).parameters.results_per_page = some k
    ∧ (r.page k).search_page = k
    ∧ (sp.client_results_per_page k).results_per_page = some k
    ∧ client_page ob k = some k
    ∧ (sp.lib_results_per_page k).results_per_page = some k
    ∧ (sp.lib_results_per_page 0).results_per_page = some 0 := by
  refine ⟨?_, ?_, ?_, ?_, ?_, ?_, ?_, ?_, rfl, rfl⟩ <;>
    simp [SearchRequest.results_per_page, SearchRequest.page,
      SlotParameters.client_results_per_page, client_page,
      SlotParameters.lib_results_per_page, hk]

/-- C3 witness: instantiation at `k = 7` on the fresh search builder. -/
theorem c3_zero_guard_witness :
    SearchRequest.new.results_per_page 0 = SearchRequest.new
    ∧ (SearchRequest.new.results_per_page 7).parameters.results_per_page = some 7 := by
  have h := c3_zero_guard SearchRequest.new SlotParameters.default none 7 (by decide)
  exact ⟨h.1, h.2.2.2.2.1⟩

/-- Folding the guarded push over any vector of at most 8 entries appends
exactly the elements that still fit. -/
theorem pushLocations_eq_append_take (vs : List String) :
    ∀ acc : List String, acc.length ≤ 8 →
      pushLocations acc vs = acc ++ vs.take (8 - acc.length) := by
  induction vs with
  | nil => intro acc h; simp [pushLocations]
  | cons v vs ih =>
    intro acc h
    show pushLocations (pushLocation acc v) vs = _
    by_cases h8 : acc.length < 8
    · rw [pushLocation, if_pos h8, ih (acc ++ [v]) (by simp; omega)]
      have h9 : 8 - acc.length = (8 - (acc.length + 1)) + 1 := by omega
      simp [h9, List.take_succ_cons]
    · have hlen : acc.length = 8 := by omega
      rw [pushLocation, if_neg h8, ih acc h, hlen]
      simp

/-- One slot-based `location` call on a prefix-filled slot assignment agrees
with one guarded push on the corresponding vector. -/
theorem slot_location_eq_pushLocation (base : SlotParameters) (v : String) :
    ∀ l : List String, l.length ≤ 8 →
      SlotParameters.location (slotsOfList base l) v = slotsOfList base (pushLocation l v) := by
  intro l hl
  match l with
  | [] => simp [SlotParameters.location, slotsOfList, pushLocation]
  | [a] => simp [SlotParameters.location, slotsOfList, pushLocation]
  | [a, b] => simp [SlotParameters.location, slotsOfList, pushLocation]
  | [a, b, c] => simp [SlotParameters.location, slotsOfList, pushLocation]
  | [a, b, c, d] => simp [SlotParameters.location, slotsOfList, pushLocation]
  | [a, b, c, d, e] => simp [SlotParameters.location, slotsOfList, pushLocation]
  | [a, b, c, d, e, f] => simp [SlotParameters.location, slotsOfList, pushLocation]
  | [a, b, c, d, e, f, g] => simp [SlotParameters.location, slotsOfList, pushLocation]
  | [a, b, c, d, e, f, g, h] => simp [SlotParameters.location, slotsOfList, pushLocation]
  | a :: b :: c :: d :: e :: f :: g :: h :: i :: t => simp at hl

/-- The guarded push never grows the vector beyond 8 entries. -/
theorem pushLocation_length_le (l : List String) (v : String) (h : l.length ≤ 8) :
    (pushLocation l v).length ≤ 8 := by
  rw [pushLocation]
  split
  · simp
    omega
  · exact h

/-- Folding slot-based `location` calls over a prefix-filled slot assignment
agrees with folding guarded pushes over the corresponding vector. -/
theorem slot_locations_eq_pushLocations (base : SlotParameters) (vs : List String) :
    ∀ l : List String, l.length ≤ 8 →
      vs.foldl SlotParameters.location (slotsOfList base l) = slotsOfList base (pushLocations l vs) := by
  induction vs with
  | nil => intro l _; simp [pushLocations]
  | cons v vs ih =>
    intro l hl
    rw [List.foldl_cons, slot_location_eq_pushLocation base v l hl,
      ih (pushLocation l v) (pushLocation_length_le l v hl)]
    rfl

/-- C1: for every sequence of `location` setter calls with values `vs` on a
fresh builder, the retained locations are exactly the first `min(N, 8)`
values in call order; they serialize as `location0..location{min(N,8)-1}`;
any call on a full vector is a no-op returning the state unchanged (so it
alters no previously filled slot); and the slot-based `src/client.rs`
if-chain produces exactly the slot assignment of those first `min(N, 8)`
values. -/
theorem c1_location_invariant (vs : List String) :
    pushLocations [] vs = vs.take 8
    ∧ location_serialize (pushLocations [] vs)
        = (vs.take 8).enum.map (fun p => ("location" ++ toString p.1, p.2))
    ∧ (∀ (locs : List String) (v : String), 8 ≤ locs.length → pushLocation locs v = locs)
    ∧ vs.foldl SlotParameters.location SlotParameters.default
        = slotsOfList SlotParameters.default (vs.take 8) := by
  have hmain : pushLocations [] vs = vs.take 8 := by
    simpa using pushLocations_eq_append_take vs [] (by simp)
  refine ⟨hmain, by rw [hmain]; rfl, ?_, ?_⟩
  · intro locs v h
    rw [pushLocation, if_neg (by omega)]
  · calc vs.foldl SlotParameters.location SlotParameters.default
        = vs.foldl SlotParameters.location (slotsOfList SlotParameters.default []) := rfl
      _ = slotsOfList SlotParameters.default (pushLocations [] vs) :=
          slot_locations_eq_pushLocations SlotParameters.default vs [] (by simp)
      _ = slotsOfList SlotParameters.default (vs.take 8) := by rw [hmain]

/-- C1 witness: nine distinct calls keep the first eight values, and a ninth
call on the full vector changes nothing. -/
theorem c1_location_invariant_witness :
    pushLocations [] ["a", "b", "c", "d", "e", "f", "g", "h", "i"]
      = ["a", "b", "c", "d", "e", "f", "g", "h"]
    ∧ pushLocation ["a", "b", "c", "d", "e", "f", "g", "h"] "i"
      = ["a", "b", "c", "d", "e", "f", "g", "h"] := by
  have h := c1_location_invariant ["a", "b", "c", "d", "e", "f", "g", "h", "i"]
  exact ⟨by simpa using h.1, h.2.2.1 ["a", "b", "c", "d", "e", "f", "g", "h"] "i" (by decide)⟩

/-- C7: every endpoint struct is created with country code "us"
(`Country::UnitedStates.to_code()`), overridable through the `country`
setter; in the `src/client.rs` iteration every accessor except
`api_version` pre-sets the country to "us" and `api_version` sets none; the
`/version` URL is the bare root plus `/version` for any stored country and
page (no country segment), and the query of a fresh version request holds
exactly the two auth parameters. -/
theorem c7_country_default_and_version (e : Endpoint) (id key c : String) (pg : Nat)
    (ct : Country) (he : e ≠ Endpoint.version) :
    SearchRequest.new.search_country = "us"
    ∧ (SearchRequest.new.country ct).search_country = ct.to_code
    ∧ Endpoint.client_default_country e = some "us"
    ∧ Endpoint.client_default_country Endpoint.version = none
    ∧ get_request_url Endpoint.version c pg = "/version"
    ∧ request_fetch_url Endpoint.version SearchRequest.new
      = "https://api.adzuna.com/v1/api/version"
    ∧ client_fetch_url Endpoint.version.client_name
        (Endpoint.client_default_country Endpoint.version) client_default_page
      = "https://api.adzuna.com/v1/api/version"
    ∧ fetch_query id key SearchRequest.new.parameters = [("app_id", id), ("app_key", key)] := by
  refine ⟨rfl, rfl, ?_, rfl, rfl, rfl, rfl, rfl⟩
  cases e <;> first | exact absurd rfl he | rfl

/-- C7 witness: instantiation at the categories endpoint and the Germany
override. -/
theorem c7_country_default_and_version_witness :
    Endpoint.client_default_country Endpoint.categories = some "us"
    ∧ (SearchRequest.new.country Country.Germany).search_country = Country.Germany.to_code :=
  have h := c7_country_default_and_version Endpoint.categories "id" "key" "fr" 2
    Country.Germany (by decide)
  ⟨h.2.2.1, h.2.1⟩

set_option maxHeartbeats 1600000

/-- C10: every non-location setter is a frame-preserving update on both
cited builder surfaces — on the `src/request.rs` endpoint structs and on
the `src/client.rs` generic `RequestBuilder` — for every builder state and
argument it leaves every observable component (including, on the client.rs
surface, the endpoint string and the Option-typed country and page) other
than the single field or path component it is named for exactly as it
was. -/
theorem c10_setters_frame (op : SetterOp) (r : SearchRequest) (b : ClientRequestBuilder)
    (f : ReqField) (g : ClientField) :
    (f ≠ op.target → getField f (applySetter op r) = getField f r)
    ∧ (g ≠ op.client_target → getClientField g (applyClientSetter op b) = getClientField g b) := by
  constructor
  · intro h
    cases op <;> cases f <;>
      first
        | exact absurd rfl h
        | rfl
        | (simp only [applySetter, SearchRequest.page, SearchRequest.results_per_page]
           split <;> rfl)
  · intro h
    cases op <;> cases g <;>
      first
        | exact absurd rfl h
        | rfl
        | (simp only [applyClientSetter, ClientRequestBuilder.page,
             ClientRequestBuilder.results_per_page]
           split <;> rfl)

set_option maxHeartbeats 200000

/-- C10 witness: a `what` call never moves the stored months value of a
`src/request.rs` builder, nor the stored page of a `src/client.rs`
builder. -/
theorem c10_setters_frame_witness :
    getField ReqField.months (applySetter (SetterOp.what "x") SearchRequest.new)
      = getField ReqField.months SearchRequest.new
    ∧ getClientField ClientField.search_page
        (applyClientSetter (SetterOp.what "x") (ClientRequestBuilder.new "search"))
      = getClientField ClientField.search_page (ClientRequestBuilder.new "search") := by
  have h := c10_setters_frame (SetterOp.what "x") SearchRequest.new
    (ClientRequestBuilder.new "search") ReqField.months ClientField.search_page
  exact ⟨h.1 (by decide), h.2 (by decide)⟩

/-- C6 (counterexample): `RequestBuilder::full_time` in `src/lib.rs`
(lines 299–302) takes a string argument and stores it verbatim, so calling
it with "0" stores `Some("0")`, not the literal "1" the claim requires of
every flag setter. -/
theorem c6_lib_full_time_takes_argument :
    (SlotParameters.lib_full_time SlotParameters.default "0").full_time = some "0"
    ∧ (SlotParameters.lib_full_time SlotParameters.default "0").full_time ≠ some "1" := by
  exact ⟨rfl, by decide⟩

/-- C6 (amended): in the trait-based iteration (`src/request.rs`) the five
flag setters take no argument and always store the literal "1"; each is
idempotent (n ≥ 1 applications equal one); and no setter call — including
`location` — ever unsets a flag that is set.  In the `src/lib.rs` iteration
the flag setters instead take a string argument stored verbatim. -/
theorem c6_flag_setters (r s : SearchRequest) (n : Nat) (op : SetterOp) (p : SlotParameters)
    (v : String)
    (hs : s.parameters.full_time = some "1" ∧ s.parameters.part_time = some "1"
      ∧ s.parameters.contract = some "1" ∧ s.parameters.permanent = some "1"
      ∧ s.parameters.salary_include_unknown = some "1") :
    (r.full_time).parameters.full_time = some "1"
    ∧ (r.part_time).parameters.part_time = some "1"
    ∧ (r.contract).parameters.contract = some "1"
    ∧ (r.permanent).parameters.permanent = some "1"
    ∧ (r.salary_include_unknown).parameters.salary_include_unknown = some "1"
    ∧ SearchRequest.full_time^[n + 1] r = r.full_time
    ∧ SearchRequest.part_time^[n + 1] r = r.part_time
    ∧ SearchRequest.contract^[n + 1] r = r.contract
    ∧ SearchRequest.permanent^[n + 1] r = r.permanent
    ∧ SearchRequest.salary_include_unknown^[n + 1] r = r.salary_include_unknown
    ∧ (applySetter op s).parameters.full_time = some "1"
    ∧ (applySetter op s).parameters.part_time = some "1"
    ∧ (applySetter op s).parameters.contract = some "1"
    ∧ (applySetter op s).parameters.permanent = some "1"
    ∧ (applySetter op s).parameters.salary_include_unknown = some "1"
    ∧ (s.location v).parameters.full_time = some "1"
    ∧ (p.lib_full_time v).full_time = some v := by
  obtain ⟨h1, h2, h3, h4, h5⟩ := hs
  have hiter : ∀ (g : SearchRequest → SearchRequest),
      (∀ x, g (g x) = g x) → ∀ (m : Nat) (x : SearchRequest), g^[m + 1] x = g x := by
    intro g hg m
    induction m with
    | zero => intro x; rfl
    | succ m ih =>
      intro x
      rw [Function.iterate_succ_apply, ih (g x), hg x]
  refine ⟨rfl, rfl, rfl, rfl, rfl,
    hiter SearchRequest.full_time (fun _ => rfl) n r,
    hiter SearchRequest.part_time (fun _ => rfl) n r,
    hiter SearchRequest.contract (fun _ => rfl) n r,
    hiter SearchRequest.permanent (fun _ => rfl) n r,
    hiter SearchRequest.salary_include_unknown (fun _ => rfl) n r,
    ?_, ?_, ?_, ?_, ?_, ?_, rfl⟩
  · cases op <;>
      first
        | exact h1
        | rfl
        | (simp only [applySetter, SearchRequest.page, SearchRequest.results_per_page]
           split <;> exact h1)
  · cases op <;>
      first
        | exact h2
        | rfl
        | (simp only [applySetter, SearchRequest.page, SearchRequest.results_per_page]
           split <;> exact h2)
  · cases op <;>
      first
        | exact h3
        | rfl
        | (simp only [applySetter, SearchRequest.page, SearchRequest.results_per_page]
           split <;> exact h3)
  · cases op <;>
      first
        | exact h4
        | rfl
        | (simp only [applySetter, SearchRequest.page, SearchRequest.results_per_page]
           split <;> exact h4)
  · cases op <;>
      first
        | exact h5
        | rfl
        | (simp only [applySetter, SearchRequest.page, SearchRequest.results_per_page]
           split <;> exact h5)
  · simp only [SearchRequest.location]
    exact h1

/-- C6 witness: instantiation on a builder with every flag set, a `what`
call, and three repeated `full_time` applications. -/
theorem c6_flag_setters_witness :
    (applySetter (SetterOp.what "x")
        ((((SearchRequest.new.full_time).part_time).contract).permanent).salary_include_unknown
      ).parameters.full_time = some "1"
    ∧ SearchRequest.full_time^[3] SearchRequest.new = SearchRequest.new.full_time := by
  have h := c6_flag_setters SearchRequest.new
    ((((SearchRequest.new.full_time).part_time).contract).permanent).salary_include_unknown
    2 (SetterOp.what "x") SlotParameters.default "v" (by refine ⟨rfl, rfl, rfl, rfl, rfl⟩)
  exact ⟨h.2.2.2.2.2.2.2.2.2.2.1, h.2.2.2.2.2.1⟩
